import Mathlib

/-!
Verification of the latency-benchmark control-plane server (`src/server.c`): a
shallow embedding of the request router `mongoose_begin_request_callback`, the
latency reporter `report_latency`, the in-memory file server
`serve_file_from_memory_or_404`, the keep-alive streaming handler, and the
two-phase shutdown gate of `run_server`, together with proofs of the claimed
properties.

External collaborators (`measure_latency`, `latency_tester_available`,
`run_hardware_latency_test`, `get_file`, `mg_get_builtin_mime_type`) are
parameters of the embedding, gathered in an environment record. Side effects
of the streaming handler and the control loop are made explicit as event
traces. C machine integers fit in `Nat`/`Int` here without overflow concerns:
all lengths and counters stay far below their C types' bounds on the inputs
considered.
-/

namespace LatencyServer

/-- Modelled from the spec: `pattern_magic_bytes` is declared in
`latency-benchmark.h`, which is outside `src/`. The spec fixes the pattern to
N bytes, 3 per tracked pixel, and its Scenario A together with the example URL
in the comment of `is_latency_test_request` (24 hex characters) fixes N = 12. -/
def pattern_magic_bytes : Nat := 12

/-- Constant `hex_pattern_length` from `latency-benchmark.h`: two hex
characters per pattern byte. -/
def hex_pattern_length : Nat := 2 * pattern_magic_bytes

/-- Value of one hexadecimal digit, or `none` for a non-hex character. -/
def hexDigitValue (c : Char) : Option Nat :=
  if '0' ≤ c ∧ c ≤ '9' then some (c.toNat - '0'.toNat)
  else if 'a' ≤ c ∧ c ≤ 'f' then some (c.toNat - 'a'.toNat + 10)
  else if 'A' ≤ c ∧ c ≤ 'F' then some (c.toNat - 'A'.toNat + 10)
  else none

/-- Decode adjacent pairs of hex characters into bytes; fails on a non-hex
character or an odd tail. -/
def decodeHexPairs : List Char → Option (List Nat)
  | [] => some []
  | [_] => none
  | c1 :: c2 :: rest =>
    match hexDigitValue c1, hexDigitValue c2, decodeHexPairs rest with
    | some hi, some lo, some bs => some ((16 * hi + lo) :: bs)
    | _, _, _ => none

/-- Modelled from the spec: `parse_hex_magic_pattern` is declared in
`latency-benchmark.h` and defined outside `src/`. Per the spec's PatternCodec,
decoding requires exactly `2*N` hexadecimal characters, each adjacent pair
decoding to one byte; it fails, producing nothing, if the length differs or
any character is not a hex digit. -/
def parse_hex_magic_pattern (s : String) : Option (List Nat) :=
  if s.length = hex_pattern_length then decodeHexPairs s.data else none

/-- Modelled from the spec: `mg_get_var` of the third-party HTTP engine
(not part of this repository) extracts the value of a named query-string
parameter, reporting absence. The query string is modelled as a list of
name-value pairs. -/
def getQueryVar (query : List (String × String)) (name : String) : Option String :=
  (query.find? (fun p => p.1 = name)).map Prod.snd

/-- An HTTP request as seen by the router: the `request_method`, `uri` and
query string of `mg_request_info`. -/
structure Request where
  request_method : String
  uri : String
  query : List (String × String)
deriving DecidableEq

/-- Result of the external collaborator `measure_latency`: five millisecond
metrics (modelled as exact rationals) or an error message. -/
inductive MeasureResult where
  | ok (keyDown scroll maxJs maxCss maxScroll : Rat)
  | err (msg : String)
deriving DecidableEq

/-- A response as one status line, a list of header lines, and a body —
exactly the three syntactic parts of each `mg_printf` format string in
`server.c`. -/
structure HttpResponse where
  statusLine : String
  headers : List String
  body : String
deriving DecidableEq

/-- Left-pad a digit string with zeros to width 6. -/
def padZeros6 (s : String) : String :=
  String.mk (List.replicate (6 - s.length) '0') ++ s

/-- C `%f` formatting (six digits after the decimal point, round to nearest)
for a nonnegative rational. -/
def formatFixed6Nonneg (q : Rat) : String :=
  let scaled := (q * 1000000 + 1 / 2).floor.toNat
  toString (scaled / 1000000) ++ "." ++ padZeros6 (toString (scaled % 1000000))

/-- C `%f` formatting of a metric value. The doubles of `report_latency` are
modelled as rationals; on the exactly representable values the claims use,
the two formattings agree. -/
def formatFixed6 (q : Rat) : String :=
  if q < 0 then "-" ++ formatFixed6Nonneg (-q) else formatFixed6Nonneg q

/-- The function `report_latency` (server.c:36-74): on collaborator failure a
500 with `Access-Control-Allow-Origin` and plain-text error body; on success
a 200 with the five metrics formatted with `%f` into the JSON body. -/
def report_latency : MeasureResult → HttpResponse
  | .err e =>
    { statusLine := "HTTP/1.1 500 Internal Server Error"
      headers := ["Access-Control-Allow-Origin: *", "Content-Type: text/plain"]
      body := e }
  | .ok keyDown scroll maxJs maxCss maxScroll =>
    { statusLine := "HTTP/1.1 200 OK"
      headers := ["Access-Control-Allow-Origin: *", "Cache-Control: no-cache",
                  "Content-Type: text/plain"]
      body := "\x7b \"keyDownLatencyMs\": " ++ formatFixed6 keyDown ++
              ", \"scrollLatencyMs\": " ++ formatFixed6 scroll ++
              ", \"maxJSPauseTimeMs\": " ++ formatFixed6 maxJs ++
              ", \"maxCssPauseTimeMs\": " ++ formatFixed6 maxCss ++
              ", \"maxScrollPauseTimeMs\": " ++ formatFixed6 maxScroll ++ "\x7d" }

/-- The predicate `is_latency_test_request` (server.c:79-100): the URI must be
`/test`, the `magicPattern` query variable must be present with exactly
`hex_pattern_length` characters, and must hex-decode; on success the decoded
pattern is produced (the C function fills the caller's array and returns
true). -/
def is_latency_test_request (req : Request) : Option (List Nat) :=
  if req.uri = "/test" then
    match getQueryVar req.query "magicPattern" with
    | some v =>
      if v.length = hex_pattern_length then parse_hex_magic_pattern v else none
    | none => none
  else none

/-- Global `document_root` (server.c:31). -/
def document_root : String := "html"

/-- Constant `max_path` (server.c:118): the fixed size of the stack path
buffer. -/
def max_path : Nat := 2048

/-- The default-document substitution of `serve_file_from_memory_or_404`
(server.c:114-116): a URI shorter than 2 characters becomes `/index.html`. -/
def effectiveUri (uri : String) : String :=
  if uri.length < 2 then "/index.html" else uri

/-- The path construction of `serve_file_from_memory_or_404`
(server.c:118-126): `path_length = strlen(uri) + strlen(document_root) + 1`
(the terminating NUL included); only when `path_length < max_path` does
`snprintf` build `document_root ++ uri` in the 2048-byte buffer. `none` means
the guard failed and no path was built. -/
def buildFilePath (uri : String) : Option String :=
  let u := effectiveUri uri
  if u.length + document_root.length + 1 < max_path then
    some (document_root ++ u)
  else none

/-- The fixed 404 response of `serve_file_from_memory_or_404`
(server.c:140-145). -/
def notFoundResponse : HttpResponse :=
  { statusLine := "HTTP/1.1 404 Not Found"
    headers := ["Cache-Control: no-cache", "Content-Type: text/plain; charset=utf-8",
                "Content-Length: 25", "Connection: close"]
    body := "Error 404: File not found" }

/-- The environment of external collaborators consumed by the router.
`latency_tester_available` and `write_ok` are indexed streams: call number
`n` of `latency_tester_available()` returns `latency_tester_available n`, and
the `n`-th write to the keep-alive connection succeeds iff `write_ok n`. -/
structure Env where
  measure_latency : List Nat → MeasureResult
  latency_tester_available : Nat → Bool
  run_hardware_latency_test : Bool × String
  get_file : String → Option String
  mime_type : String → String
  rand_bytes : List Nat
  write_ok : Nat → Bool

/-- The function `serve_file_from_memory_or_404` (server.c:110-147):
substitute the default document, build the bounded path, look it up in the
embedded bundle (`get_file`), and serve a no-cache 200 on a hit or the fixed
404 on a miss or on an overlong path. -/
def serve_file_from_memory_or_404 (env : Env) (uri : String) : HttpResponse :=
  match buildFilePath uri with
  | some filePath =>
    match env.get_file filePath with
    | some contents =>
      { statusLine := "HTTP/1.1 200 OK"
        headers := ["Cache-Control: no-cache",
                    "Content-Type: " ++ env.mime_type filePath,
                    "Content-Length: " ++ toString contents.length,
                    "Connection: close"]
        body := contents }
    | none => notFoundResponse
  | none => notFoundResponse

/-- One observable action of the keep-alive streaming handler
(server.c:164-185). Writes record the chunk's status byte and whether the
write succeeded; `incr`/`decr` are the atomic updates of `keep_alives`. -/
inductive KAEvent where
  | incr
  | headersWrite (ok : Bool)
  | warmChunk (status : Char) (ok : Bool)
  | sleep
  | steadyChunk (status : Char) (ok : Bool)
  | decr
deriving DecidableEq

/-- The status byte carried by a keep-alive chunk: `chunk1 = "1\r\n1\r\n"`
when the hardware tester is available, `chunk0 = "1\r\n0\r\n"` otherwise
(server.c:172-174); the two differ only in this byte. -/
def statusByte (avail : Bool) : Char :=
  if avail then '1' else '0'

/-- Constant `warmup_chunks` (server.c:175). -/
def warmup_chunks : Nat := 2048

/-- The steady-state loop of the keep-alive handler (server.c:179-183),
unrolled into a trace: at iteration `j` it re-samples availability (call
`j + 1`, call 0 being the pre-warm-up sample), writes one chunk (write number
`warmup_chunks + 1 + j`, write 0 being the response headers), breaks if the
write failed, else sleeps one second and repeats. Returns the events and
whether the loop exited within `fuel` iterations (`false` = still
running). -/
def steadyLoop (avail write_ok : Nat → Bool) : Nat → Nat → List KAEvent × Bool
  | _, 0 => ([], false)
  | j, fuel + 1 =>
    let st := statusByte (avail (j + 1))
    if write_ok (warmup_chunks + 1 + j) then
      let rest := steadyLoop avail write_ok (j + 1) fuel
      (KAEvent.steadyChunk st true :: KAEvent.sleep :: rest.1, rest.2)
    else ([KAEvent.steadyChunk st false], true)

/-- The keep-alive streaming handler (server.c:164-185) as a trace:
increment `keep_alives`, write the chunked-response headers, sample
availability once and write `warmup_chunks` chunks of that status (write
results ignored), run the steady loop, and — once the loop has broken on a
failed write — decrement `keep_alives` as the final action. The `Bool` is
true iff the handler finished within `fuel` steady iterations. -/
def keepAliveHandler (avail write_ok : Nat → Bool) (fuel : Nat) :
    List KAEvent × Bool :=
  let warm := (List.range warmup_chunks).map
    (fun i => KAEvent.warmChunk (statusByte (avail 0)) (write_ok (1 + i)))
  let steady := steadyLoop avail write_ok 0 fuel
  (KAEvent.incr :: KAEvent.headersWrite (write_ok 0) ::
    (warm ++ steady.1 ++ (if steady.2 then [KAEvent.decr] else [])), steady.2)

/-- Contribution of one handler event to the `keep_alives` counter. -/
def counterDelta1 : KAEvent → Int
  | .incr => 1
  | .decr => -1
  | _ => 0

/-- Net change to `keep_alives` over a trace segment. -/
def counterDelta (tr : List KAEvent) : Int :=
  (tr.map counterDelta1).sum

/-- The `/oculusLatencyTester` branch (server.c:196-213): 200 with the
collaborator's result text on success, 500 with its error text on failure. -/
def oculusResponse : Bool × String → HttpResponse
  | (true, result) =>
    { statusLine := "HTTP/1.1 200 OK"
      headers := ["Access-Control-Allow-Origin: *", "Cache-Control: no-cache",
                  "Content-Type: text/plain"]
      body := result }
  | (false, e) =>
    { statusLine := "HTTP/1.1 500 Internal Server Error"
      headers := ["Access-Control-Allow-Origin: *", "Cache-Control: no-cache",
                  "Content-Type: text/plain"]
      body := e }

/-- What the router did with a request. `handled r` is a single written
response with return value 1; `keepAlive` hands the connection to the
streaming handler; `controlTest` records the random pattern passed to the
collaborators (reference window opened before, and closed after, the report,
regardless of outcome) along with the response; `notHandled` is return
value 0 (debug build: the engine serves from disk). -/
inductive RouterResult where
  | handled (r : HttpResponse)
  | keepAlive (tr : List KAEvent) (finished : Bool)
  | controlTest (pattern : List Nat) (r : HttpResponse)
  | notHandled
deriving DecidableEq

/-- The router `mongoose_begin_request_callback` (server.c:155-227): dispatch
in order on latency-test request, `/keepServerAlive`, `/runControlTest`,
`/oculusLatencyTester`, and otherwise static serving — from memory when
`bundled` (the NDEBUG build) or not handled at all (debug build). `fuel`
bounds the keep-alive steady loop's unrolling. -/
def mongoose_begin_request_callback (env : Env) (bundled : Bool) (fuel : Nat)
    (req : Request) : RouterResult :=
  match is_latency_test_request req with
  | some magic_pattern => .handled (report_latency (env.measure_latency magic_pattern))
  | none =>
    if req.uri = "/keepServerAlive" then
      let r := keepAliveHandler env.latency_tester_available env.write_ok fuel
      .keepAlive r.1 r.2
    else if req.uri = "/runControlTest" then
      .controlTest env.rand_bytes (report_latency (env.measure_latency env.rand_bytes))
    else if req.uri = "/oculusLatencyTester" then
      .handled (oculusResponse env.run_hardware_latency_test)
    else if bundled then
      .handled (serve_file_from_memory_or_404 env req.uri)
    else
      .notHandled

/-- The first waiting loop of `run_server` (server.c:264-266): poll
`keep_alives` once per second while it reads 0; `reads t` is the value seen
by the poll at time `t`. Returns the time of the first read that is not 0,
or `none` if no such read occurs within `fuel` polls. -/
def waitForActivity (reads : Nat → Int) : Nat → Nat → Option Nat
  | _, 0 => none
  | t, fuel + 1 =>
    if reads t = 0 then waitForActivity reads (t + 1) fuel else some t

/-- The second waiting loop of `run_server` (server.c:268-275): poll while
`keep_alives` reads greater than 0. Returns the time of the first read that
is not positive. -/
def waitForQuiescence (reads : Nat → Int) : Nat → Nat → Option Nat
  | _, 0 => none
  | t, fuel + 1 =>
    if reads t > 0 then waitForQuiescence reads (t + 1) fuel else some t

/-- The shutdown gate of `run_server` (server.c:263-276): wait for activity,
then (with fresh reads) wait for quiescence, and only then call `mg_stop` and
return to `main`. `some (t1, t2)` means the listener was stopped just after
the read at time `t2`; `none` means the gate is still waiting after `fuel`
polls of a phase. -/
def run_server_gate (reads : Nat → Int) (fuel : Nat) : Option (Nat × Nat) :=
  match waitForActivity reads 0 fuel with
  | none => none
  | some t1 =>
    match waitForQuiescence reads (t1 + 1) fuel with
    | none => none
    | some t2 => some (t1, t2)

/-- True exactly on warm-up chunk events. -/
def isWarmChunk : KAEvent → Bool
  | .warmChunk _ _ => true
  | _ => false

/-- True exactly on interval-spaced (steady-loop) chunk events. -/
def isSteadyChunk : KAEvent → Bool
  | .steadyChunk _ _ => true
  | _ => false

/-- The status byte of a warm-up chunk event, if the event is one. -/
def warmStatus? : KAEvent → Option Char
  | .warmChunk c _ => some c
  | _ => none

/-- The status bytes of all warm-up chunks of a trace, in order. -/
def warmStatuses (tr : List KAEvent) : List Char :=
  tr.filterMap warmStatus?

/-- A concrete environment used to instantiate theorems on closed inputs. -/
def env0 : Env :=
  { measure_latency := fun _ => .ok 5 2 1 (1 / 2) (1 / 4)
    latency_tester_available := fun _ => false
    run_hardware_latency_test := (false, "e")
    get_file := fun _ => none
    mime_type := fun _ => "text/html"
    rand_bytes := List.replicate pattern_magic_bytes 0
    write_ok := fun _ => false }

end LatencyServer

namespace LatencyServer

/-- Evaluation of `formatFixed6` once the floor of the scaled value is
known. -/
lemma formatFixed6_of_floor (q : Rat) (s : Nat) (h0 : ¬ q < 0)
    (h : ⌊q * 1000000 + 1 / 2⌋ = (s : Int)) :
    formatFixed6 q =
      toString (s / 1000000) ++ "." ++ padZeros6 (toString (s % 1000000)) := by
  rw [formatFixed6, if_neg h0]
  show toString ((q * 1000000 + 1 / 2).floor.toNat / 1000000) ++ "." ++
      padZeros6 (toString ((q * 1000000 + 1 / 2).floor.toNat % 1000000)) = _
  rw [show (q * 1000000 + 1 / 2).floor = ⌊q * 1000000 + 1 / 2⌋ from rfl, h,
    Int.toNat_natCast]

lemma formatFixed6_five : formatFixed6 5 = "5.000000" := by
  rw [formatFixed6_of_floor 5 5000000 (by norm_num) ?h]
  · decide
  case h =>
    rw [show ((5 : ℚ) * 1000000 + 1 / 2) = ((10000001 : ℤ) : ℚ) / ((2 : ℕ) : ℚ) by
      push_cast; ring]
    rw [Rat.floor_intCast_div_natCast]; decide

lemma formatFixed6_two : formatFixed6 2 = "2.000000" := by
  rw [formatFixed6_of_floor 2 2000000 (by norm_num) ?h]
  · decide
  case h =>
    rw [show ((2 : ℚ) * 1000000 + 1 / 2) = ((4000001 : ℤ) : ℚ) / ((2 : ℕ) : ℚ) by
      push_cast; ring]
    rw [Rat.floor_intCast_div_natCast]; decide

lemma formatFixed6_one : formatFixed6 1 = "1.000000" := by
  rw [formatFixed6_of_floor 1 1000000 (by norm_num) ?h]
  · decide
  case h =>
    rw [show ((1 : ℚ) * 1000000 + 1 / 2) = ((2000001 : ℤ) : ℚ) / ((2 : ℕ) : ℚ) by
      push_cast; ring]
    rw [Rat.floor_intCast_div_natCast]; decide

lemma formatFixed6_half : formatFixed6 (1 / 2) = "0.500000" := by
  rw [formatFixed6_of_floor (1 / 2) 500000 (by norm_num) ?h]
  · decide
  case h =>
    rw [show ((1 / 2 : ℚ) * 1000000 + 1 / 2) = ((1000001 : ℤ) : ℚ) / ((2 : ℕ) : ℚ) by
      push_cast; ring]
    rw [Rat.floor_intCast_div_natCast]; decide

lemma formatFixed6_quarter : formatFixed6 (1 / 4) = "0.250000" := by
  rw [formatFixed6_of_floor (1 / 4) 250000 (by norm_num) ?h]
  · decide
  case h =>
    rw [show ((1 / 4 : ℚ) * 1000000 + 1 / 2) = ((1000002 : ℤ) : ℚ) / ((4 : ℕ) : ℚ) by
      push_cast; ring]
    rw [Rat.floor_intCast_div_natCast]; decide

/-- A request that is not a latency-test request and matches none of the
three special paths is answered by the in-memory file server in the bundled
build. -/
lemma router_static (env : Env) (fuel : Nat) (req : Request)
    (h0 : is_latency_test_request req = none)
    (h1 : req.uri ≠ "/keepServerAlive") (h2 : req.uri ≠ "/runControlTest")
    (h3 : req.uri ≠ "/oculusLatencyTester") :
    mongoose_begin_request_callback env true fuel req =
      .handled (serve_file_from_memory_or_404 env req.uri) := by
  rw [mongoose_begin_request_callback, h0]
  dsimp only
  rw [if_neg h1, if_neg h2, if_neg h3, if_pos rfl]

lemma waitForActivity_spec (reads : Nat → Int) :
    ∀ fuel t0 t1, waitForActivity reads t0 fuel = some t1 →
      t0 ≤ t1 ∧ (∀ t, t0 ≤ t → t < t1 → reads t = 0) ∧ reads t1 ≠ 0 := by
  intro fuel
  induction fuel with
  | zero => intro t0 t1 h; simp [waitForActivity] at h
  | succ n ih =>
    intro t0 t1 h
    rw [waitForActivity] at h
    by_cases h0 : reads t0 = 0
    · rw [if_pos h0] at h
      obtain ⟨hle, hmid, hne⟩ := ih (t0 + 1) t1 h
      refine ⟨by omega, ?_, hne⟩
      intro t ht1 ht2
      rcases Nat.eq_or_lt_of_le ht1 with rfl | hlt
      · exact h0
      · exact hmid t hlt ht2
    · rw [if_neg h0] at h
      obtain rfl : t0 = t1 := by simpa using h
      exact ⟨le_refl _, fun t ht1 ht2 => absurd (by omega : t0 < t0) (lt_irrefl t0), h0⟩

lemma waitForQuiescence_spec (reads : Nat → Int) :
    ∀ fuel t0 t1, waitForQuiescence reads t0 fuel = some t1 →
      t0 ≤ t1 ∧ (∀ t, t0 ≤ t → t < t1 → 0 < reads t) ∧ ¬ 0 < reads t1 := by
  intro fuel
  induction fuel with
  | zero => intro t0 t1 h; simp [waitForQuiescence] at h
  | succ n ih =>
    intro t0 t1 h
    rw [waitForQuiescence] at h
    by_cases h0 : reads t0 > 0
    · rw [if_pos h0] at h
      obtain ⟨hle, hmid, hne⟩ := ih (t0 + 1) t1 h
      refine ⟨by omega, ?_, hne⟩
      intro t ht1 ht2
      rcases Nat.eq_or_lt_of_le ht1 with rfl | hlt
      · exact h0
      · exact hmid t hlt ht2
    · rw [if_neg h0] at h
      obtain rfl : t0 = t1 := by simpa using h
      exact ⟨le_refl _, fun t ht1 ht2 => absurd (by omega : t0 < t0) (lt_irrefl t0), h0⟩

/-- Every event produced by the steady-state loop is a chunk write or a
sleep. -/
lemma steadyLoop_events (avail w : Nat → Bool) :
    ∀ fuel j e, e ∈ (steadyLoop avail w j fuel).1 →
      e = KAEvent.sleep ∨ ∃ c ok, e = KAEvent.steadyChunk c ok := by
  intro fuel
  induction fuel with
  | zero => intro j e he; simp [steadyLoop] at he
  | succ n ih =>
    intro j e he
    simp only [steadyLoop] at he
    by_cases hw : w (warmup_chunks + 1 + j) = true
    · rw [if_pos hw] at he
      simp only [List.mem_cons] at he
      rcases he with rfl | rfl | he
      · exact Or.inr ⟨_, _, rfl⟩
      · exact Or.inl rfl
      · exact ih (j + 1) e he
    · rw [if_neg hw] at he
      simp only [List.mem_cons, List.not_mem_nil, or_false] at he
      subst he
      exact Or.inr ⟨_, _, rfl⟩

/-- When the steady-state loop has exited, its last event is a failed chunk
write. -/
lemma steadyLoop_ends (avail w : Nat → Bool) :
    ∀ fuel j, (steadyLoop avail w j fuel).2 = true →
      ∃ pre c, (steadyLoop avail w j fuel).1 =
        pre ++ [KAEvent.steadyChunk c false] := by
  intro fuel
  induction fuel with
  | zero => intro j h; simp [steadyLoop] at h
  | succ n ih =>
    intro j h
    by_cases hw : w (warmup_chunks + 1 + j) = true
    · have h2 : (steadyLoop avail w (j + 1) n).2 = true := by
        simp only [steadyLoop, if_pos hw] at h
        exact h
      obtain ⟨pre, c, hpre⟩ := ih (j + 1) h2
      refine ⟨KAEvent.steadyChunk (statusByte (avail (j + 1))) true ::
        KAEvent.sleep :: pre, c, ?_⟩
      simp only [steadyLoop, if_pos hw]
      rw [hpre]
      simp
    · refine ⟨[], statusByte (avail (j + 1)), ?_⟩
      simp only [steadyLoop, if_neg hw]
      simp

/-- Shape of the keep-alive handler's trace. -/
lemma keepAliveHandler_fst (avail w : Nat → Bool) (fuel : Nat) :
    (keepAliveHandler avail w fuel).1 =
      KAEvent.incr :: KAEvent.headersWrite (w 0) ::
        ((List.range warmup_chunks).map
            (fun i => KAEvent.warmChunk (statusByte (avail 0)) (w (1 + i))) ++
          (steadyLoop avail w 0 fuel).1 ++
          (if (steadyLoop avail w 0 fuel).2 then [KAEvent.decr] else [])) := rfl

lemma counterDelta_cons (e : KAEvent) (l : List KAEvent) :
    counterDelta (e :: l) = counterDelta1 e + counterDelta l := by
  simp [counterDelta]

lemma counterDelta_append (l1 l2 : List KAEvent) :
    counterDelta (l1 ++ l2) = counterDelta l1 + counterDelta l2 := by
  simp [counterDelta]

lemma counterDelta_zero_of (l : List KAEvent)
    (h : ∀ e ∈ l, counterDelta1 e = 0) : counterDelta l = 0 :=
  List.sum_eq_zero (fun x hx => by
    obtain ⟨e, he, rfl⟩ := List.mem_map.1 hx
    exact h e he)

/-- The warm-up statuses of the handler trace are the constant burst of the
pre-warm-up availability sample. -/
lemma warmStatuses_handler (avail w : Nat → Bool) (fuel : Nat) :
    warmStatuses (keepAliveHandler avail w fuel).1 =
      List.replicate warmup_chunks (statusByte (avail 0)) := by
  rw [warmStatuses, keepAliveHandler_fst]
  rw [List.filterMap_cons, List.filterMap_cons]
  show List.filterMap warmStatus? _ = _
  rw [List.filterMap_append, List.filterMap_append]
  have h1 : List.filterMap warmStatus?
      ((List.range warmup_chunks).map
        (fun i => KAEvent.warmChunk (statusByte (avail 0)) (w (1 + i)))) =
      List.replicate warmup_chunks (statusByte (avail 0)) := by
    rw [List.filterMap_map]
    have hcomp : (warmStatus? ∘ fun i =>
        KAEvent.warmChunk (statusByte (avail 0)) (w (1 + i))) =
        fun _ => some (statusByte (avail 0)) := rfl
    rw [hcomp]
    rw [show (fun (_ : Nat) => some (statusByte (avail 0))) =
      some ∘ (fun (_ : Nat) => statusByte (avail 0)) from rfl]
    rw [List.filterMap_eq_map, List.map_const', List.length_range]
  have h2 : List.filterMap warmStatus? (steadyLoop avail w 0 fuel).1 = [] := by
    rw [List.filterMap_eq_nil_iff]
    intro e he
    rcases steadyLoop_events avail w fuel 0 e he with rfl | ⟨c, ok, rfl⟩ <;> rfl
  have h3 : List.filterMap warmStatus?
      (if (steadyLoop avail w 0 fuel).2 then [KAEvent.decr] else []) = [] := by
    by_cases hf : (steadyLoop avail w 0 fuel).2 = true
    · rw [if_pos hf]; rfl
    · rw [if_neg hf]; rfl
  rw [h1, h2, h3]
  simp

/-- The steady-state loop does not depend on the outcomes of the header and
warm-up writes. -/
lemma steadyLoop_write_agree (avail w w2 : Nat → Bool)
    (hagree : ∀ j, w (warmup_chunks + 1 + j) = w2 (warmup_chunks + 1 + j)) :
    ∀ fuel j, steadyLoop avail w j fuel = steadyLoop avail w2 j fuel := by
  intro fuel
  induction fuel with
  | zero => intro j; rfl
  | succ n ih =>
    intro j
    rw [steadyLoop, steadyLoop, hagree j, ih (j + 1)]

/-- Counter bookkeeping of any trace of the form
`incr :: (neutral events ++ [decr])`. -/
lemma trace_props (mid : List KAEvent)
    (hmid : ∀ e ∈ mid, counterDelta1 e = 0) :
    (KAEvent.incr :: (mid ++ [KAEvent.decr])).head? = some KAEvent.incr ∧
    (KAEvent.incr :: (mid ++ [KAEvent.decr])).getLast? = some KAEvent.decr ∧
    (KAEvent.incr :: (mid ++ [KAEvent.decr])).count KAEvent.incr = 1 ∧
    (KAEvent.incr :: (mid ++ [KAEvent.decr])).count KAEvent.decr = 1 ∧
    counterDelta (KAEvent.incr :: (mid ++ [KAEvent.decr])) = 0 ∧
    ∀ k, 0 < k → k < (KAEvent.incr :: (mid ++ [KAEvent.decr])).length →
      counterDelta ((KAEvent.incr :: (mid ++ [KAEvent.decr])).take k) = 1 := by
  have hmid0 : counterDelta mid = 0 := counterDelta_zero_of mid hmid
  have hnotincr : KAEvent.incr ∉ mid := fun hmem => by
    have := hmid _ hmem
    simp [counterDelta1] at this
  have hnotdecr : KAEvent.decr ∉ mid := fun hmem => by
    have := hmid _ hmem
    simp [counterDelta1] at this
  refine ⟨rfl, ?_, ?_, ?_, ?_, ?_⟩
  · rw [show KAEvent.incr :: (mid ++ [KAEvent.decr]) =
      (KAEvent.incr :: mid) ++ [KAEvent.decr] from by simp]
    exact List.getLast?_concat _
  · rw [List.count_cons_self, List.count_append, List.count_eq_zero.2 hnotincr]
    decide
  · rw [List.count_cons_of_ne (by decide), List.count_append,
      List.count_eq_zero.2 hnotdecr]
    decide
  · rw [counterDelta_cons, counterDelta_append, hmid0]
    decide
  · intro k hk0 hklen
    obtain ⟨k2, rfl⟩ : ∃ k2, k = k2 + 1 := ⟨k - 1, by omega⟩
    rw [List.take_succ_cons, counterDelta_cons]
    have hk2 : k2 ≤ mid.length := by
      simp only [List.length_cons, List.length_append, List.length_nil] at hklen
      omega
    rw [List.take_append_of_le_length hk2]
    have h0 : counterDelta (mid.take k2) = 0 :=
      counterDelta_zero_of _ (fun e he => hmid e (List.take_subset _ _ he))
    rw [h0]
    decide

end LatencyServer

namespace LatencyServer

/-- C1: a GET to `/test` whose `magicPattern` query parameter is absent, has
the wrong length, or fails hex decoding is not answered with a 500; it falls
through to static serving and, in bundled mode, yields exactly the fixed 404
response — the same response as a request for any unknown static path. -/
theorem test_bad_pattern_falls_through (env : Env) (fuel : Nat) (m : String)
    (q : List (String × String))
    (hbad : getQueryVar q "magicPattern" = none ∨
      ∃ v, getQueryVar q "magicPattern" = some v ∧
        (v.length ≠ hex_pattern_length ∨ parse_hex_magic_pattern v = none))
    (hmiss : env.get_file "html/test" = none) :
    mongoose_begin_request_callback env true fuel ⟨m, "/test", q⟩ =
      .handled notFoundResponse ∧
    ∀ m2 u q2, u ≠ "/keepServerAlive" → u ≠ "/runControlTest" →
      u ≠ "/oculusLatencyTester" →
      is_latency_test_request ⟨m2, u, q2⟩ = none →
      env.get_file (document_root ++ effectiveUri u) = none →
      (effectiveUri u).length + document_root.length + 1 < max_path →
      mongoose_begin_request_callback env true fuel ⟨m2, u, q2⟩ =
        mongoose_begin_request_callback env true fuel ⟨m, "/test", q⟩ := by
  have hnot : is_latency_test_request ⟨m, "/test", q⟩ = none := by
    rw [is_latency_test_request, if_pos rfl]
    rcases hbad with h | ⟨v, hv, hbad2⟩
    · rw [h]
    · rw [hv]
      dsimp only
      rcases hbad2 with h | h
      · rw [if_neg h]
      · by_cases hl : v.length = hex_pattern_length
        · rw [if_pos hl, h]
        · rw [if_neg hl]
  have hserve : serve_file_from_memory_or_404 env "/test" = notFoundResponse := by
    rw [serve_file_from_memory_or_404,
      show buildFilePath "/test" = some "html/test" from by decide]
    dsimp only
    rw [hmiss]
  have hmain := router_static env fuel ⟨m, "/test", q⟩ hnot
    (show ("/test" : String) ≠ "/keepServerAlive" by decide)
    (show ("/test" : String) ≠ "/runControlTest" by decide)
    (show ("/test" : String) ≠ "/oculusLatencyTester" by decide)
  constructor
  · rw [hmain]
    show RouterResult.handled (serve_file_from_memory_or_404 env "/test") = _
    rw [hserve]
  · intro m2 u q2 hu1 hu2 hu3 hnone hmiss2 hlen
    have hother := router_static env fuel ⟨m2, u, q2⟩ hnone hu1 hu2 hu3
    rw [hmain, hother]
    have hs2 : serve_file_from_memory_or_404 env u = notFoundResponse := by
      rw [serve_file_from_memory_or_404,
        show buildFilePath u = some (document_root ++ effectiveUri u) from by
          rw [buildFilePath, if_pos hlen]]
      dsimp only
      rw [hmiss2]
    show RouterResult.handled (serve_file_from_memory_or_404 env u) =
      RouterResult.handled (serve_file_from_memory_or_404 env "/test")
    rw [hs2, hserve]

/-- Witness for C1 at a concrete request and environment. -/
theorem test_bad_pattern_falls_through_witness :
    mongoose_begin_request_callback env0 true 1 ⟨"GET", "/test",
        [("magicPattern", "bad")]⟩ = .handled notFoundResponse ∧
    mongoose_begin_request_callback env0 true 1 ⟨"GET", "/nosuchfile", []⟩ =
      mongoose_begin_request_callback env0 true 1 ⟨"GET", "/test",
        [("magicPattern", "bad")]⟩ :=
  ⟨(test_bad_pattern_falls_through env0 1 "GET" [("magicPattern", "bad")]
      (Or.inr ⟨"bad", rfl, Or.inl (by decide)⟩) rfl).1,
   (test_bad_pattern_falls_through env0 1 "GET" [("magicPattern", "bad")]
      (Or.inr ⟨"bad", rfl, Or.inl (by decide)⟩) rfl).2 "GET" "/nosuchfile" []
      (by decide) (by decide) (by decide) (by decide) rfl (by decide)⟩

/-- C2: on every finished keep-alive execution, the counter increment is the
first event (before any write), the decrement is the last event (after the
last write attempt), each occurs exactly once, the net counter change is 0,
and every proper non-empty prefix of the trace carries a net change of
exactly +1. -/
theorem keepAlive_counter_balanced (avail w : Nat → Bool) (fuel : Nat)
    (hfin : (keepAliveHandler avail w fuel).2 = true) :
    (keepAliveHandler avail w fuel).1.head? = some KAEvent.incr ∧
    (keepAliveHandler avail w fuel).1.getLast? = some KAEvent.decr ∧
    (keepAliveHandler avail w fuel).1.count KAEvent.incr = 1 ∧
    (keepAliveHandler avail w fuel).1.count KAEvent.decr = 1 ∧
    counterDelta (keepAliveHandler avail w fuel).1 = 0 ∧
    ∀ k, 0 < k → k < (keepAliveHandler avail w fuel).1.length →
      counterDelta ((keepAliveHandler avail w fuel).1.take k) = 1 := by
  have hfin2 : (steadyLoop avail w 0 fuel).2 = true := hfin
  have htr : (keepAliveHandler avail w fuel).1 =
      KAEvent.incr :: ((KAEvent.headersWrite (w 0) ::
        ((List.range warmup_chunks).map
            (fun i => KAEvent.warmChunk (statusByte (avail 0)) (w (1 + i))) ++
          (steadyLoop avail w 0 fuel).1)) ++ [KAEvent.decr]) := by
    rw [keepAliveHandler_fst, if_pos hfin2]
    simp
  have hmid : ∀ e ∈ KAEvent.headersWrite (w 0) ::
      ((List.range warmup_chunks).map
          (fun i => KAEvent.warmChunk (statusByte (avail 0)) (w (1 + i))) ++
        (steadyLoop avail w 0 fuel).1), counterDelta1 e = 0 := by
    intro e he
    rcases List.mem_cons.1 he with rfl | he2
    · rfl
    rcases List.mem_append.1 he2 with hw2 | hs2
    · obtain ⟨i, -, rfl⟩ := List.mem_map.1 hw2
      rfl
    · rcases steadyLoop_events avail w fuel 0 e hs2 with rfl | ⟨c, ok, rfl⟩ <;> rfl
  rw [htr]
  exact trace_props _ hmid

/-- Witness for C2 on a concrete execution that exits in the first steady
iteration. -/
theorem keepAlive_counter_balanced_witness :
    (keepAliveHandler (fun _ => false) (fun _ => false) 1).1.head? =
      some KAEvent.incr ∧
    counterDelta (keepAliveHandler (fun _ => false) (fun _ => false) 1).1 = 0 :=
  ⟨(keepAlive_counter_balanced (fun _ => false) (fun _ => false) 1 rfl).1,
   (keepAlive_counter_balanced (fun _ => false) (fun _ => false) 1 rfl).2.2.2.2.1⟩

/-- C3: when the shutdown gate of `run_server` stops the listener at times
`(t1, t2)`, every poll before `t1` read 0 (the gate does not pass the first
phase while the counter is 0), the poll at `t1` read non-zero, every poll
strictly between `t1` and `t2` read positive (the gate does not pass the
second phase while the counter is positive), and the poll at `t2` read
non-positive; only then is the listener stopped. -/
theorem run_server_gate_two_phase (reads : Nat → Int) (fuel t1 t2 : Nat)
    (h : run_server_gate reads fuel = some (t1, t2)) :
    (∀ t, t < t1 → reads t = 0) ∧ reads t1 ≠ 0 ∧
    (∀ t, t1 < t → t < t2 → 0 < reads t) ∧ ¬ 0 < reads t2 ∧ t1 < t2 := by
  rw [run_server_gate] at h
  rcases ha : waitForActivity reads 0 fuel with _ | s1
  · rw [ha] at h; simp at h
  rw [ha] at h
  dsimp only at h
  rcases hq : waitForQuiescence reads (s1 + 1) fuel with _ | s2
  · rw [hq] at h; simp at h
  rw [hq] at h
  dsimp only at h
  obtain ⟨rfl, rfl⟩ : t1 = s1 ∧ t2 = s2 := by
    have h2 := Option.some.inj h
    exact ⟨(congrArg Prod.fst h2).symm, (congrArg Prod.snd h2).symm⟩
  obtain ⟨-, hmid1, hne1⟩ := waitForActivity_spec reads fuel 0 t1 ha
  obtain ⟨hle2, hmid2, hne2⟩ := waitForQuiescence_spec reads fuel (t1 + 1) t2 hq
  exact ⟨fun t ht => hmid1 t (Nat.zero_le t) ht, hne1,
    fun t h1 h2 => hmid2 t (by omega) h2, hne2, by omega⟩

/-- Witness for C3 on a concrete read sequence 0, 1, 0, ... -/
theorem run_server_gate_two_phase_witness :
    (fun t => if t = 1 then (1 : Int) else 0) 1 ≠ 0 ∧
    ¬ 0 < (fun t => if t = 1 then (1 : Int) else 0) 2 ∧ (1 : Nat) < 2 :=
  ⟨(run_server_gate_two_phase (fun t => if t = 1 then 1 else 0) 3 1 2
      (by decide)).2.1,
   (run_server_gate_two_phase (fun t => if t = 1 then 1 else 0) 3 1 2
      (by decide)).2.2.2.1,
   (run_server_gate_two_phase (fun t => if t = 1 then 1 else 0) 3 1 2
      (by decide)).2.2.2.2⟩

/-- C4 counterexample: the 500 failure response of the latency-report handler
carries no `Cache-Control: no-cache` header, so the claim that both its
responses disable caching is false on the code. -/
theorem report_latency_error_lacks_no_cache :
    (report_latency (.err "Unknown error.")).statusLine =
      "HTTP/1.1 500 Internal Server Error" ∧
    "Cache-Control: no-cache" ∉ (report_latency (.err "Unknown error.")).headers := by
  decide

/-- C4 (amended): every response of the latency-report handler carries the
permissive cross-origin header; the 200 success response also carries
`Cache-Control: no-cache`, but the 500 failure response does not. -/
theorem report_latency_headers (r : MeasureResult) :
    "Access-Control-Allow-Origin: *" ∈ (report_latency r).headers ∧
    (∀ k s j c sc, r = .ok k s j c sc →
      "Cache-Control: no-cache" ∈ (report_latency r).headers) ∧
    (∀ e, r = .err e →
      "Cache-Control: no-cache" ∉ (report_latency r).headers) := by
  refine ⟨?_, ?_, ?_⟩
  · rcases r with ⟨k, s, j, c, sc⟩ | e <;> simp [report_latency]
  · intro k s j c sc h
    subst h
    simp [report_latency]
  · intro e h
    subst h
    simp [report_latency]

/-- Witness for the amended C4 at concrete collaborator results. -/
theorem report_latency_headers_witness :
    "Access-Control-Allow-Origin: *" ∈ (report_latency (.err "boom")).headers ∧
    "Cache-Control: no-cache" ∈ (report_latency (.ok 5 2 1 3 4)).headers ∧
    "Cache-Control: no-cache" ∉ (report_latency (.err "boom")).headers :=
  ⟨(report_latency_headers (.err "boom")).1,
   (report_latency_headers (.ok 5 2 1 3 4)).2.1 5 2 1 3 4 rfl,
   (report_latency_headers (.err "boom")).2.2 "boom" rfl⟩

/-- C5: a `/test` request with a valid 24-hex-character `magicPattern`, when
the measurement collaborator returns the metrics (5, 2, 1, 0.5, 0.25), is
answered with status 200 and exactly the claimed JSON body, each metric
printed with six decimal digits as by `%f`. -/
theorem test_valid_pattern_200 (env : Env) (bundled : Bool) (fuel : Nat)
    (m : String) (q : List (String × String)) (v : String) (pat : List Nat)
    (hv : getQueryVar q "magicPattern" = some v)
    (hlen : v.length = hex_pattern_length)
    (hparse : parse_hex_magic_pattern v = some pat)
    (hm : env.measure_latency pat = .ok 5 2 1 (1 / 2) (1 / 4)) :
    mongoose_begin_request_callback env bundled fuel ⟨m, "/test", q⟩ =
      .handled
        { statusLine := "HTTP/1.1 200 OK"
          headers := ["Access-Control-Allow-Origin: *", "Cache-Control: no-cache",
                      "Content-Type: text/plain"]
          body := "\x7b \"keyDownLatencyMs\": 5.000000, \"scrollLatencyMs\": 2.000000, \"maxJSPauseTimeMs\": 1.000000, \"maxCssPauseTimeMs\": 0.500000, \"maxScrollPauseTimeMs\": 0.250000\x7d" } := by
  have hreq : is_latency_test_request ⟨m, "/test", q⟩ = some pat := by
    rw [is_latency_test_request, if_pos rfl, hv]
    dsimp only
    rw [if_pos hlen, hparse]
  rw [mongoose_begin_request_callback, hreq]
  dsimp only
  rw [hm, report_latency]
  rw [formatFixed6_five, formatFixed6_two, formatFixed6_one, formatFixed6_half,
    formatFixed6_quarter]
  rfl

/-- Witness for C5 with the 24-hex pattern from the source comment. -/
theorem test_valid_pattern_200_witness :
    mongoose_begin_request_callback env0 true 1 ⟨"GET", "/test",
        [("magicPattern", "8a36052d02c596dfa4c80711")]⟩ =
      .handled
        { statusLine := "HTTP/1.1 200 OK"
          headers := ["Access-Control-Allow-Origin: *", "Cache-Control: no-cache",
                      "Content-Type: text/plain"]
          body := "\x7b \"keyDownLatencyMs\": 5.000000, \"scrollLatencyMs\": 2.000000, \"maxJSPauseTimeMs\": 1.000000, \"maxCssPauseTimeMs\": 0.500000, \"maxScrollPauseTimeMs\": 0.250000\x7d" } :=
  test_valid_pattern_200 env0 true 1 "GET"
    [("magicPattern", "8a36052d02c596dfa4c80711")] "8a36052d02c596dfa4c80711"
    [138, 54, 5, 45, 2, 197, 150, 223, 164, 200, 7, 17]
    rfl (by decide) (by decide) rfl

end LatencyServer

namespace LatencyServer

/-- C6: when the combined length of the document root and the (possibly
default-substituted) URI exceeds the 2048-byte path buffer, no path is built,
no asset lookup happens (the result is independent of the bundle), and the
response is the fixed 404; and every path that is built fits in the buffer
together with its terminating NUL. -/
theorem overlong_path_not_found :
    (∀ (env env2 : Env) (uri : String),
      max_path < document_root.length + (effectiveUri uri).length →
      buildFilePath uri = none ∧
      serve_file_from_memory_or_404 env uri = notFoundResponse ∧
      serve_file_from_memory_or_404 env uri = serve_file_from_memory_or_404 env2 uri) ∧
    (∀ uri filePath, buildFilePath uri = some filePath →
      filePath.length + 1 < max_path) := by
  have h4 : document_root.length = 4 := by decide
  have hm : max_path = 2048 := rfl
  constructor
  · intro env env2 uri h
    rw [h4, hm] at h
    have hb : buildFilePath uri = none := by
      rw [buildFilePath, if_neg]
      intro hlt
      rw [h4, hm] at hlt
      omega
    rw [serve_file_from_memory_or_404, serve_file_from_memory_or_404, hb]
    exact ⟨rfl, rfl, rfl⟩
  · intro uri filePath h
    rw [buildFilePath] at h
    by_cases hlt : (effectiveUri uri).length + document_root.length + 1 < max_path
    · rw [if_pos hlt] at h
      have hfp : filePath = document_root ++ effectiveUri uri := (Option.some.inj h).symm
      rw [h4, hm] at hlt
      rw [hfp, String.length_append, h4, hm]
      omega
    · rw [if_neg hlt] at h; cases h

/-- Witness for C6 at a 2045-character URI and at the default document
path. -/
theorem overlong_path_not_found_witness :
    (buildFilePath (String.mk (List.replicate 2045 'a')) = none ∧
      serve_file_from_memory_or_404 env0 (String.mk (List.replicate 2045 'a')) =
        notFoundResponse ∧
      serve_file_from_memory_or_404 env0 (String.mk (List.replicate 2045 'a')) =
        serve_file_from_memory_or_404 env0 (String.mk (List.replicate 2045 'a'))) ∧
    "html/index.html".length + 1 < max_path :=
  ⟨overlong_path_not_found.1 env0 env0 (String.mk (List.replicate 2045 'a'))
      (by
        have hlen : (String.mk (List.replicate 2045 'a')).length = 2045 :=
          List.length_replicate 2045 'a'
        have heff : effectiveUri (String.mk (List.replicate 2045 'a')) =
            String.mk (List.replicate 2045 'a') := by
          rw [effectiveUri, if_neg]
          omega
        rw [heff, hlen]
        decide),
   overlong_path_not_found.2 "/" "html/index.html" (by decide)⟩

/-- C7: a request whose URI is shorter than 2 characters (the root path) is
served by the in-memory file server exactly as a request for `/index.html`:
the whole responses — status line, headers and body — coincide. -/
theorem serve_root_as_index (env : Env) (uri : String) (h : uri.length < 2) :
    serve_file_from_memory_or_404 env uri =
      serve_file_from_memory_or_404 env "/index.html" := by
  have he : effectiveUri uri = effectiveUri "/index.html" := by
    rw [effectiveUri, if_pos h]; decide
  rw [serve_file_from_memory_or_404, serve_file_from_memory_or_404,
    buildFilePath, buildFilePath, he]

/-- Witness for C7 at the root path. -/
theorem serve_root_as_index_witness :
    serve_file_from_memory_or_404 env0 "/" =
      serve_file_from_memory_or_404 env0 "/index.html" :=
  serve_root_as_index env0 "/" (by decide)

/-- C8: after the two header events, the handler's trace starts with exactly
`warmup_chunks` (2048) warm-up chunks — no interval-spaced chunk occurs among
the first `warmup_chunks + 2` events and no warm-up chunk occurs later — and
every warm-up chunk carries status '1' if availability was sampled true and
'0' otherwise; with availability stubbed false, the 2048 warm-up statuses are
all '0'. -/
theorem warmup_burst_before_steady (avail w : Nat → Bool) (fuel : Nat) :
    warmStatuses (keepAliveHandler avail w fuel).1 =
      List.replicate warmup_chunks (statusByte (avail 0)) ∧
    (∀ e ∈ (keepAliveHandler avail w fuel).1.take (warmup_chunks + 2),
      isSteadyChunk e = false) ∧
    (∀ e ∈ (keepAliveHandler avail w fuel).1.drop (warmup_chunks + 2),
      isWarmChunk e = false) ∧
    ((∀ n, avail n = false) →
      warmStatuses (keepAliveHandler avail w fuel).1 =
        List.replicate warmup_chunks '0') := by
  have hws := warmStatuses_handler avail w fuel
  have hwl : ((List.range warmup_chunks).map
      (fun i => KAEvent.warmChunk (statusByte (avail 0)) (w (1 + i)))).length =
      warmup_chunks := by simp
  have htake : (keepAliveHandler avail w fuel).1.take (warmup_chunks + 2) =
      KAEvent.incr :: KAEvent.headersWrite (w 0) ::
        (List.range warmup_chunks).map
          (fun i => KAEvent.warmChunk (statusByte (avail 0)) (w (1 + i))) := by
    rw [keepAliveHandler_fst,
      show warmup_chunks + 2 = (warmup_chunks + 1) + 1 from rfl,
      List.take_succ_cons, List.take_succ_cons, List.append_assoc,
      List.take_left' hwl]
  have hdrop : (keepAliveHandler avail w fuel).1.drop (warmup_chunks + 2) =
      (steadyLoop avail w 0 fuel).1 ++
        (if (steadyLoop avail w 0 fuel).2 then [KAEvent.decr] else []) := by
    rw [keepAliveHandler_fst,
      show warmup_chunks + 2 = (warmup_chunks + 1) + 1 from rfl,
      List.drop_succ_cons, List.drop_succ_cons, List.append_assoc,
      List.drop_left' hwl]
  refine ⟨hws, ?_, ?_, ?_⟩
  · intro e he
    rw [htake] at he
    rcases List.mem_cons.1 he with rfl | he2
    · rfl
    rcases List.mem_cons.1 he2 with rfl | he3
    · rfl
    obtain ⟨i, -, rfl⟩ := List.mem_map.1 he3
    rfl
  · intro e he
    rw [hdrop] at he
    rcases List.mem_append.1 he with hs2 | hites
    · rcases steadyLoop_events avail w fuel 0 e hs2 with rfl | ⟨c, ok, rfl⟩ <;> rfl
    · by_cases hf : (steadyLoop avail w 0 fuel).2 = true
      · rw [if_pos hf] at hites
        simp only [List.mem_cons, List.not_mem_nil, or_false] at hites
        subst hites
        rfl
      · rw [if_neg hf] at hites
        simp at hites
  · intro hall
    rw [hws, hall 0]
    rfl

/-- Witness for C8 with availability stubbed false. -/
theorem warmup_burst_before_steady_witness :
    warmStatuses (keepAliveHandler (fun _ => false) (fun _ => true) 1).1 =
      List.replicate warmup_chunks '0' :=
  (warmup_burst_before_steady (fun _ => false) (fun _ => true) 1).2.2.2
    (fun _ => rfl)

/-- C9: the router's dispatch never inspects the request method — two
requests differing only in their method are handled identically. -/
theorem router_ignores_method (env : Env) (bundled : Bool) (fuel : Nat)
    (m1 m2 u : String) (q : List (String × String)) :
    mongoose_begin_request_callback env bundled fuel ⟨m1, u, q⟩ =
      mongoose_begin_request_callback env bundled fuel ⟨m2, u, q⟩ := rfl

/-- C10: the keep-alive handler samples availability exactly once before the
warm-up burst (the burst's statuses are the constant pre-burst sample, and
only that sample matters for them), the burst always attempts all 2048
writes regardless of write outcomes (the steady loop is unaffected by header
and warm-up write failures), and the stream terminates only on a failed
write in the once-per-second loop: a finished trace ends with a failed
steady chunk followed by the decrement. -/
theorem warm_sample_once_and_steady_termination
    (avail avail2 w w2 : Nat → Bool) (fuel : Nat)
    (hagree : ∀ j, w (warmup_chunks + 1 + j) = w2 (warmup_chunks + 1 + j))
    (hav : avail2 0 = avail 0) :
    steadyLoop avail w 0 fuel = steadyLoop avail w2 0 fuel ∧
    warmStatuses (keepAliveHandler avail w fuel).1 =
      List.replicate warmup_chunks (statusByte (avail 0)) ∧
    warmStatuses (keepAliveHandler avail2 w fuel).1 =
      warmStatuses (keepAliveHandler avail w fuel).1 ∧
    ((keepAliveHandler avail w fuel).2 = true →
      ∃ pre c, (keepAliveHandler avail w fuel).1 =
        pre ++ [KAEvent.steadyChunk c false, KAEvent.decr]) := by
  refine ⟨steadyLoop_write_agree avail w w2 hagree fuel 0,
    warmStatuses_handler avail w fuel, ?_, ?_⟩
  · rw [warmStatuses_handler, warmStatuses_handler, hav]
  · intro hfin
    have hfin2 : (steadyLoop avail w 0 fuel).2 = true := hfin
    obtain ⟨pre, c, hpre⟩ := steadyLoop_ends avail w fuel 0 hfin2
    refine ⟨KAEvent.incr :: KAEvent.headersWrite (w 0) ::
      ((List.range warmup_chunks).map
          (fun i => KAEvent.warmChunk (statusByte (avail 0)) (w (1 + i))) ++ pre),
      c, ?_⟩
    rw [keepAliveHandler_fst, if_pos hfin2, hpre]
    simp

/-- Witness for C10 on concrete availability and write streams. -/
theorem warm_sample_once_witness :
    warmStatuses (keepAliveHandler (fun _ => false) (fun _ => false) 1).1 =
      List.replicate warmup_chunks (statusByte false) ∧
    warmStatuses (keepAliveHandler (fun _ => false) (fun _ => false) 1).1 =
      warmStatuses (keepAliveHandler (fun _ => false) (fun _ => false) 1).1 :=
  ⟨(warm_sample_once_and_steady_termination (fun _ => false) (fun _ => false)
      (fun _ => false) (fun _ => false) 1 (fun _ => rfl) rfl).2.1,
   (warm_sample_once_and_steady_termination (fun _ => false) (fun _ => false)
      (fun _ => false) (fun _ => false) 1 (fun _ => rfl) rfl).2.2.1⟩

end LatencyServer
